import Mathlib

-- Verification of the request handlers in src/api/analyze.ts.
-- The file holds three near-duplicate revisions of a serverless endpoint
-- (separated by document markers): revision A (OpenRouter client, strict
-- 15-item check, 502 on bad model output), revision B (OpenRouter client,
-- 500 on bad model output, array check only) and revision C (Gemini fetch,
-- bracket extraction, inline audio support).  Each handler is embedded as a
-- pure function; the external effects are explicit parameters:
--   * pj      models the JavaScript builtin JSON.parse (none = parse throws);
--   * outcome models the single outbound model call's result.
-- The returned pair carries the HTTP response and the list of outbound model
-- calls made (with their payloads), so call-count and payload claims can be
-- stated.  CORS headers and console logging are not modelled (headers do not
-- affect status or body).

set_option maxRecDepth 100000
set_option maxHeartbeats 2000000

namespace Analyze

-- JavaScript runtime values, as far as the handlers inspect them: the body
-- fields can be any JS value; the handlers use truthiness, typeof ... string,
-- and String(...) coercion.  Numbers are modelled as integers (the handlers
-- never do arithmetic on them; only truthiness and string coercion matter).
inductive JsVal where
  | undef
  | null
  | bool (b : Bool)
  | num (n : Int)
  | str (s : String)
  | obj

-- JavaScript truthiness of a value (NaN is not representable in this model).
def JsVal.truthy : JsVal → Bool
  | .undef => false
  | .null => false
  | .bool b => b
  | .num n => n != 0
  | .str s => s != ""
  | .obj => true

-- String(v) coercion, as used in the user-message template literals.
def JsVal.toStr : JsVal → String
  | .undef => "undefined"
  | .null => "null"
  | .bool true => "true"
  | .bool false => "false"
  | .num n => toString n
  | .str s => s
  | .obj => "[object Object]"

-- typeof v === 'string'
def JsVal.isString : JsVal → Bool
  | .str _ => true
  | _ => false

-- Char-list prefix and substring tests (String.startsWith and the substring
-- searches are modelled on the character lists, which compute by reduction).
def leadsWith : List Char → List Char → Bool
  | [], _ => true
  | _ :: _, [] => false
  | a :: as, b :: bs => a == b && leadsWith as bs

def hasSub (n : List Char) : List Char → Bool
  | [] => n.isEmpty
  | c :: cs => leadsWith n (c :: cs) || hasSub n cs

-- s.startsWith pre
def jsStartsWith (s pre : String) : Bool := leadsWith pre.data s.data

-- hay.includes needle (used only to state the prompt-content claims)
def strContains (hay needle : String) : Bool := hasSub needle.data hay.data

-- typeof speechSample === 'string' && speechSample.startsWith('data:')
def isDataUriStr : JsVal → Bool
  | .str s => jsStartsWith s "data:"
  | _ => false

-- Truthiness of an environment variable (process.env.X is a string or
-- undefined; the handlers test !KEY, so the empty string also counts missing).
def envTruthy : Option String → Bool
  | some s => s != ""
  | none => false

-- JSON values, the result type of JSON.parse.
inductive Json where
  | null
  | bool (b : Bool)
  | num (n : Int)
  | str (s : String)
  | arr (elements : List Json)
  | obj (fields : List (String × Json))

def lookupField : List (String × Json) → String → Option Json
  | [], _ => none
  | kv :: rest, key => if kv.1 == key then some kv.2 else lookupField rest key

-- Property access v.key: undefined (none) on missing keys and non-objects.
-- (The one place where JS property access instead throws - reading a property
-- of null - is modelled explicitly in revision B's handler below.)
def Json.getProp : Json → String → Option Json
  | .obj fields, key => lookupField fields key
  | _, _ => none

def Json.itemAt : Json → Nat → Option Json
  | .arr l, i => l[i]?
  | _, _ => none

-- JS truthiness of a parsed JSON value (arrays and objects, even empty
-- ones, are truthy in JavaScript).
def Json.truthy : Json → Bool
  | .null => false
  | .bool b => b
  | .num n => n != 0
  | .str s => s != ""
  | .arr _ => true
  | .obj _ => true

def Json.isNull : Json → Bool
  | .null => true
  | _ => false

-- Truthiness of a possibly-undefined property value (!x on a property read).
def optTruthy : Option Json → Bool
  | some v => v.truthy
  | none => false

-- Array.isArray on a possibly-undefined property value.
def optIsArray : Option Json → Bool
  | some (.arr _) => true
  | _ => false

-- x.length of a possibly-undefined property value, when x is an array.
def optArrLen : Option Json → Option Nat
  | some (.arr l) => some l.length
  | _ => none

-- Exact template-literal text from revision A of src/api/analyze.ts.
def examPromptA : String :=
  "You are a professional exam evaluator. Your task is to evaluate the candidate\x27s answer compared to the perfect answer across 15 criteria.\n\nFor EACH criterion, produce:\n- Evaluation: 2–3 sentences minimum, detailed and specific.\n- Comparison: 3–4 sentences minimum, comparing candidate vs. perfect answer.\n- Feedback: 2–3 sentences minimum, concrete and actionable.\n\nSingle-line responses are unacceptable. Be thorough and helpful."

-- Exact template-literal text from revision A of src/api/analyze.ts.
def coachPromptA : String :=
  "You are a professional speech coach. Analyze a speech sample and provide constructive feedback across 15 criteria.\n\nFor EACH criterion, produce:\n- Evaluation: 2–3 sentences minimum, detailed and specific.\n- Feedback: 2–3 sentences minimum, concrete and actionable.\n\nSingle-line responses are unacceptable. Be thorough and helpful."

-- Exact template-literal text from revision A of src/api/analyze.ts.
def sharedPromptA : String :=
  "\n\nIMPORTANT:\n- \x27speechSample\x27 may be text OR an audio data URI. If audio, first transcribe it, then analyze the transcription.\n- Output MUST be a valid JSON object following this schema:\n\x7b\n  \"metadata\": \x7b\n    \"wordCount\": number,\n    \"fillerWordCount\": number,\n    \"speechRateWPM\": number,\n    \"averagePauseDurationMs\": number,\n    \"pitchVariance\": number,\n    \"audioDurationSeconds\": number,\n    \"paceScore\": number,\n    \"clarityScore\": number,\n    \"pausePercentage\": number\n  \x7d,\n  \"highlightedTranscription\": [\n    \x7b \"text\": string, \"type\": \"default\" | \"filler\" | \"pause\" \x7d\n  ],\n  \"evaluationCriteria\": [\n    \x7b\n      \"category\": \"Delivery\" | \"Language\" | \"Content\",\n      \"criteria\": \"Fluency\" | \"Pacing\" | \"Clarity\" | \"Confidence\" | \"Emotional Tone\" |\n                  \"Grammar\" | \"Vocabulary\" | \"Word Choice\" | \"Conciseness\" | \"Filler Words\" |\n                  \"Relevance\" | \"Organization\" | \"Accuracy\" | \"Depth\" | \"Persuasiveness\",\n      \"score\": number,\n      \"evaluation\": string,\n      \"feedback\": string,\n      \"comparison\": string\n    \x7d\n  ],\n  \"totalScore\": number,\n  \"overallAssessment\": string,\n  \"suggestedSpeech\": string\n\x7d\n\nRequirements:\n- Provide exactly 15 items in evaluationCriteria covering the listed criteria.\n- highlightedTranscription must segment the full transcription: each word as \x27default\x27, filler words as \x27filler\x27, and significant silences as \x27pause\x27 like \"[PAUSE: 1.2s]\".\n- suggestedSpeech: 1–3 sentences demonstrating an improved delivery matching the user\x27s context."

-- Exact template-literal text from revision B of src/api/analyze.ts.
def examPromptB : String :=
  "You are a professional exam evaluator. Your task is to evaluate the candidate\x27s answer compared to the perfect answer based on the following 15 criteria. For each criterion, you must provide:\n- **Evaluation:** A detailed, multi-sentence assessment (2-3 sentences minimum) of the candidate\x27s performance on that criterion.\n- **Comparison:** A comprehensive analysis (3-4 sentences minimum) of how the candidate\x27s answer compares with the perfect answer for that criterion.\n- **Feedback:** Specific, actionable suggestions for improvement (2-3 sentences minimum).\n\nCRITICAL: Each evaluation, comparison, and feedback must be substantial and detailed. Single-line responses are not acceptable."

-- Exact template-literal text from revision B of src/api/analyze.ts.
def coachPromptB : String :=
  "You are a professional speech coach. Your task is to analyze a speech sample and provide constructive feedback.\n\nCRITICAL: Each evaluation and feedback must be detailed and comprehensive (2-3 sentences minimum). Single-line responses are not acceptable."

-- Exact template-literal text from revision B of src/api/analyze.ts.
def sharedPromptB1 : String :=
  "\n\nIMPORTANT: The speech sample may be provided as text OR as an audio data URI. If the \x27speechSample\x27 field contains a data URI (e.g., \x27data:audio/wav;base64,...\x27), you MUST first transcribe the audio into text. Then, use that transcription for the analysis below. If the \x27speechSample\x27 is already text, use it directly.\n\nReturn your answer as a valid JSON object following this schema exactly (do not include any extra text).\n\nFollow these instructions when generating the JSON:\n- Evaluate the speech sample on ALL 15 of the following criteria.\n- **Delivery Criteria**: Fluency, Pacing, Clarity, Confidence, Emotional Tone. Assign the category \x27Delivery\x27 to these.\n- **Language Criteria**: Grammar, Vocabulary, Word Choice, Conciseness, Filler Words. Assign the category \x27Language\x27 to these.\n- **Content Criteria**: Relevance, Organization, Accuracy, Depth, Persuasiveness. Assign the category \x27Content\x27 to these.\n\n**QUALITY REQUIREMENTS:**\n- For each of the 15 criteria, provide a score from 0-10, a detailed evaluation (2-3 sentences), and comprehensive actionable feedback (2-3 sentences).\n- Each evaluation must explain WHY the score was given and provide specific examples from the speech.\n- Each feedback must offer concrete, actionable steps for improvement.\n- Single-line or brief responses are unacceptable - be thorough and detailed."

-- Exact template-literal text from revision B of src/api/analyze.ts.
def cmpPromptB : String :=
  "\n- For each criterion, you MUST also provide a detailed \x27comparison\x27 (3-4 sentences) of the candidate\x27s answer to the perfect answer."

-- Exact template-literal text from revision B of src/api/analyze.ts.
def sharedPromptB2 : String :=
  "\n- The totalScore is from 0 to 100, and should evaluate the speech sample and context as a whole.\n- The wordCount, fillerWordCount, speechRateWPM, averagePauseDurationMs, and pitchVariance should be calculated or estimated from the transcription.\n- The paceScore and clarityScore should be scores from 0-100 based on the analysis.\n- The pausePercentage should be the estimated percentage of total time the speaker was pausing.\n- **highlightedTranscription**: This is critical. You must meticulously segment the entire transcription. Create a segment for every single word or pause. A \x27filler\x27 type is ONLY for a single filler word (e.g., um, ah, like). A \x27pause\x27 type is for significant silences (e.g., \x27[PAUSE: 1.2s]\x27). All other words are \x27default\x27. Concatenating all \x27text\x27 fields MUST reconstruct the full transcription with pause annotations. Do not leave this field empty. Be extremely thorough.\n- **suggestedSpeech**: Provide a concise (1â€“3 sentences) rephrasing that demonstrates ideal delivery for the user\x27s context. Keep it natural, specific, and immediately usable. Use neutral tone unless the mode implies otherwise.\n\n**REMEMBER: Quality over brevity. Each evaluation and feedback must be substantial and helpful.**"

-- Exact template-literal text from revision C of src/api/analyze.ts.
def examPromptC : String :=
  "You are a professional exam evaluator. Your task is to evaluate the candidate\x27s answer compared to the perfect answer based on the following 15 criteria. For each criterion, provide Evaluation, Comparison, and Feedback."

-- Exact template-literal text from revision C of src/api/analyze.ts.
def coachPromptC : String :=
  "You are a professional speech coach. Analyze the sample and provide constructive feedback."

-- Exact template-literal text from revision C of src/api/analyze.ts.
def sharedPromptC : String :=
  "\nIMPORTANT: The speech sample may be provided as TEXT or as AUDIO. If audio is provided, first TRANSCRIBE it exactly to text.\n\nReturn ONLY a valid JSON object with this shape:\n\x7b\n  \"metadata\": \x7b\n    \"wordCount\": number,\n    \"fillerWordCount\": number,\n    \"speechRateWPM\": number,\n    \"averagePauseDurationMs\": number,\n    \"pitchVariance\": number,\n    \"audioDurationSeconds\"?: number,\n    \"paceScore\": number,\n    \"clarityScore\": number,\n    \"pausePercentage\": number\n  \x7d,\n  \"highlightedTranscription\": [\x7b\"text\": string, \"type\": \"default\"|\"filler\"|\"pause\"\x7d],\n  \"evaluationCriteria\": [\x7b\n    \"category\": \"Delivery\"|\"Language\"|\"Content\",\n    \"criteria\": \"Fluency\"|\"Pacing\"|\"Clarity\"|\"Confidence\"|\"Emotional Tone\"|\"Grammar\"|\"Vocabulary\"|\"Word Choice\"|\"Conciseness\"|\"Filler Words\"|\"Relevance\"|\"Organization\"|\"Accuracy\"|\"Depth\"|\"Persuasiveness\",\n    \"score\": number,\n    \"evaluation\": string,\n    \"comparison\"?: string,\n    \"feedback\": string\n  \x7d],\n  \"totalScore\": number,\n  \"overallAssessment\": string,\n  \"suggestedSpeech\"?: string\n\x7d\n\nRules:\n- Provide EXACTLY those 15 criteria with correct categories.\n- highlightedTranscription must reconstruct the full text when concatenated.\n- suggestedSpeech: 2–3 sentences users could say verbatim, tailored to context."

-- The request body after `req.body || {}`-style destructuring: each field is
-- a JS value, undefined when absent.  (Braces above denote a JS object.)
structure Body where
  speechSample : JsVal
  mode : JsVal
  question : JsVal
  perfectAnswer : JsVal

def emptyBody : Body := ⟨.undef, .undef, .undef, .undef⟩

-- What the handler sends back: res.status(n).json(x) / .send(text) / .end().
inductive RespBody where
  | jsonVal (v : Json)
  | errJson (error : String) (details : Option String)
  | text (s : String)
  | empty

structure HttpResp where
  status : Nat
  body : RespBody

-- One chat-completions call payload (revisions A and B): the two messages.
structure ModelCall where
  sysPrompt : String
  userMsg : String

-- Result of the awaited openai.chat.completions.create call (revisions A, B):
-- err = the SDK threw (it does so when the upstream API answers a non-success
-- status; upstreamStatus records that status, message the thrown message);
-- ok = a completion came back, content = choices[0]?.message?.content.
inductive CallOutcomeAB where
  | err (upstreamStatus : Nat) (message : String)
  | ok (content : Option String)

-- One Gemini request part (revision C).
inductive Part where
  | text (s : String)
  | inlineData (mimeType : String) (data : String)

-- Result of the awaited fetch in revision C: netErr = fetch or r.json()
-- threw; resp = a response r with r.ok, r.status, await r.text() and
-- await r.json().
inductive FetchOutcome where
  | netErr (message : String)
  | resp (ok : Bool) (status : Nat) (bodyText : String) (bodyJson : Json)

-- System prompt of revision A: branch on perfectAnswer, then += the shared
-- schema text.
def systemPromptA (hasPerfectAnswer : Bool) : String :=
  (if hasPerfectAnswer then examPromptA else coachPromptA) ++ sharedPromptA

-- System prompt of revision B: branch, += shared text, += the comparison
-- requirement only when perfectAnswer is present, += the rest.
def systemPromptB (hasPerfectAnswer : Bool) : String :=
  (if hasPerfectAnswer then examPromptB else coachPromptB) ++ sharedPromptB1
    ++ (if hasPerfectAnswer then cmpPromptB else "") ++ sharedPromptB2

-- System prompt of revision C.
def systemPromptC (hasPerfectAnswer : Bool) : String :=
  (if hasPerfectAnswer then examPromptC else coachPromptC) ++ sharedPromptC

-- contextText, identical in all three revisions.
def contextText (mode question perfectAnswer : JsVal) : String :=
  let t := "Context: " ++ mode.toStr
  let t := if question.truthy then t ++ "\nQuestion: " ++ question.toStr else t
  if perfectAnswer.truthy then t ++ "\nPerfect Answer: " ++ perfectAnswer.toStr else t

-- The user message of revisions A and B: the data-URI branch embeds the URI
-- itself as literal text in the message.
def userMessageAB (speechSample mode question perfectAnswer : JsVal) : String :=
  contextText mode question perfectAnswer ++ "\n\n" ++
    (if isDataUriStr speechSample then
      "Speech Sample (Audio Data URI): " ++ speechSample.toStr
    else
      "Speech Sample (Text): " ++ speechSample.toStr)

-- parseDataUri of revision C: the regex match against
-- data:([^;]+);base64,(.*)$ where the dot does not match line terminators.
-- The mime part is the non-empty run up to the first semicolon (it may span
-- newlines, a negated class matches them); "base64," must follow it; the
-- payload is the remainder and may not contain a line terminator (JS dot).
def splitAtSemi : List Char → Option (List Char × List Char)
  | [] => none
  | c :: cs =>
      if c == ';' then some ([], cs)
      else
        match splitAtSemi cs with
        | some pr => some (c :: pr.1, pr.2)
        | none => none

def isLineTerm (c : Char) : Bool :=
  c == '\n' || c == '\r' || c == '\u2028' || c == '\u2029'

def parseDataUri (dataUri : String) : Option (String × String) :=
  if jsStartsWith dataUri "data:" then
    match splitAtSemi (dataUri.data.drop 5) with
    | some pr =>
        if pr.1.isEmpty then none
        else
          if leadsWith "base64,".data pr.2 then
            let payload := pr.2.drop 7
            if payload.all (fun c => !isLineTerm c) then
              some (String.mk pr.1, String.mk payload)
            else none
          else none
    | none => none
  else none

-- text.match of the regex matching a brace followed by anything followed by
-- a brace (revision C): succeeds iff some open brace precedes the last close
-- brace; the (greedy) match runs from the first such open brace to the last
-- close brace of the whole string.
def firstOpenIdx : List Char → Option Nat
  | [] => none
  | c :: cs => if c == '\x7b' then some 0 else (firstOpenIdx cs).map (· + 1)

def lastCloseIdx : List Char → Option Nat
  | [] => none
  | c :: cs =>
      match lastCloseIdx cs with
      | some i => some (i + 1)
      | none => if c == '\x7d' then some 0 else none

def bracketMatch (s : String) : Option String :=
  match firstOpenIdx s.data, lastCloseIdx s.data with
  | some i, some j =>
      if i < j then some (String.mk ((s.data.drop i).take (j - i + 1))) else none
  | _, _ => none

-- data?.candidates?.[0]?.content?.parts?.[0]?.text of revision C.
def geminiTextVal (data : Json) : Option Json :=
  (((((data.getProp "candidates").bind (fun v => v.itemAt 0)).bind
      (fun v => v.getProp "content")).bind
      (fun v => v.getProp "parts")).bind
      (fun v => v.itemAt 0)).bind (fun v => v.getProp "text")

-- const text = data?.candidates?.[0]?.content?.parts?.[0]?.text || '';
-- followed by text.match(...): a truthy non-string value makes .match throw
-- (caught by the outer catch); a falsy or absent value is replaced by ''.
inductive TextOutcome where
  | ok (t : String)
  | typeErr

def modelTextC (data : Json) : TextOutcome :=
  match geminiTextVal data with
  | some v =>
      if v.truthy then
        match v with
        | .str s => .ok s
        | _ => .typeErr
      else .ok ""
  | none => .ok ""

-- Revision A, after the model call (the code from `const responseText = ...`
-- to the end of the try block).  The !responseText test is rendered as the
-- two cases missing-content and empty-string content.
def handlerA_post (pj : String → Option Json) (outcome : CallOutcomeAB) : HttpResp :=
  match outcome with
  | .err _ message =>
      ⟨500, .errJson "Analysis failed" (some (if message == "" then "unknown" else message))⟩
  | .ok none => ⟨502, .errJson "No response from model" none⟩
  | .ok (some responseText) =>
      if responseText == "" then ⟨502, .errJson "No response from model" none⟩
      else
        match pj responseText with
        | none => ⟨502, .errJson "Model returned non-JSON output" none⟩
        | some parsed =>
            let ec := parsed.getProp "evaluationCriteria"
            if !optTruthy ec || !optIsArray ec || optArrLen ec != some 15 then
              ⟨502, .errJson "Invalid response structure: evaluationCriteria must contain 15 items" none⟩
            else ⟨200, .jsonVal parsed⟩

-- Revision A handler.  Returns the response and the list of outbound model
-- calls (empty on the early returns, one element once the call is made).
def handlerA (pj : String → Option Json) (apiKey : Option String) (method : String)
    (body? : Option Body) (outcome : CallOutcomeAB) : HttpResp × List ModelCall :=
  if method = "OPTIONS" then (⟨204, .empty⟩, [])
  else if method ≠ "POST" then (⟨405, .text "Method Not Allowed"⟩, [])
  else if !envTruthy apiKey then (⟨500, .errJson "Missing OPENROUTER_API_KEY" none⟩, [])
  else
    let b := body?.getD emptyBody
    if !b.speechSample.truthy || !b.mode.truthy then
      (⟨400, .errJson "Missing required fields: speechSample, mode" none⟩, [])
    else
      (handlerA_post pj outcome,
       [⟨systemPromptA b.perfectAnswer.truthy,
         userMessageAB b.speechSample b.mode b.question b.perfectAnswer⟩])

-- Revision B, after the model call.  A null parse result makes the property
-- read parsed.evaluationCriteria throw a TypeError, which the outer catch
-- turns into the generic 500 with the V8 message as details.
def handlerB_post (pj : String → Option Json) (outcome : CallOutcomeAB) : HttpResp :=
  match outcome with
  | .err _ message => ⟨500, .errJson "Analysis failed" (some message)⟩
  | .ok none => ⟨500, .errJson "No response from AI model" none⟩
  | .ok (some responseText) =>
      if responseText == "" then ⟨500, .errJson "No response from AI model" none⟩
      else
        match pj responseText with
        | none => ⟨500, .errJson "Failed to parse AI response as JSON" none⟩
        | some parsed =>
            if parsed.isNull then
              ⟨500, .errJson "Analysis failed"
                (some "Cannot read properties of null (reading \x27evaluationCriteria\x27)")⟩
            else
              let ec := parsed.getProp "evaluationCriteria"
              if !optTruthy ec || !optIsArray ec then
                ⟨500, .errJson "Invalid response structure from AI" none⟩
              else ⟨200, .jsonVal parsed⟩

-- Revision B handler (the allowCors wrapper answers OPTIONS with 200).
def handlerB (pj : String → Option Json) (apiKey : Option String) (method : String)
    (body? : Option Body) (outcome : CallOutcomeAB) : HttpResp × List ModelCall :=
  if method = "OPTIONS" then (⟨200, .empty⟩, [])
  else if method ≠ "POST" then (⟨405, .text "Method Not Allowed"⟩, [])
  else if !envTruthy apiKey then (⟨500, .errJson "Missing OPENROUTER_API_KEY" none⟩, [])
  else
    let b := body?.getD emptyBody
    if !b.speechSample.truthy || !b.mode.truthy then
      (⟨400, .errJson "Missing required fields." none⟩, [])
    else
      (handlerB_post pj outcome,
       [⟨systemPromptB b.perfectAnswer.truthy,
         userMessageAB b.speechSample b.mode b.question b.perfectAnswer⟩])

-- Revision C, after the fetch call.
def handlerC_post (pj : String → Option Json) (outcome : FetchOutcome) : HttpResp :=
  match outcome with
  | .netErr _ => ⟨500, .errJson "Analysis failed." none⟩
  | .resp ok status bodyText bodyJson =>
      if !ok then ⟨status, .errJson bodyText none⟩
      else
        match modelTextC bodyJson with
        | .typeErr => ⟨500, .errJson "Analysis failed." none⟩
        | .ok t =>
            match bracketMatch t with
            | none => ⟨502, .errJson "Model did not return JSON." none⟩
            | some m =>
                match pj m with
                | none => ⟨500, .errJson "Analysis failed." none⟩
                | some parsed => ⟨200, .jsonVal parsed⟩

-- Revision C handler: a data: speech sample is parsed and sent as an
-- inlineData part (or rejected with 400, before any call, when malformed);
-- anything else is coerced to text.  The call trace records the parts sent.
def handlerC (pj : String → Option Json) (apiKey : Option String) (method : String)
    (body? : Option Body) (outcome : FetchOutcome) : HttpResp × List (List Part) :=
  if method = "OPTIONS" then (⟨200, .empty⟩, [])
  else if method ≠ "POST" then (⟨405, .text "Method Not Allowed"⟩, [])
  else if !envTruthy apiKey then (⟨500, .errJson "Missing GOOGLE_AI_API_KEY" none⟩, [])
  else
    let b := body?.getD emptyBody
    if !b.speechSample.truthy || !b.mode.truthy then
      (⟨400, .errJson "Missing required fields." none⟩, [])
    else
      let baseParts := [Part.text (systemPromptC b.perfectAnswer.truthy),
                        Part.text (contextText b.mode b.question b.perfectAnswer)]
      if isDataUriStr b.speechSample then
        match parseDataUri b.speechSample.toStr with
        | none => (⟨400, .errJson "Invalid audio data URI." none⟩, [])
        | some audio =>
            (handlerC_post pj outcome, [baseParts ++ [Part.inlineData audio.1 audio.2]])
      else
        (handlerC_post pj outcome,
         [baseParts ++ [Part.text ("Speech Sample (Candidate\x27s Answer): " ++ b.speechSample.toStr)]])

-- Whether revision C's data-URI branch lets the request through to the model
-- call (non-data samples always do; data: strings must parse).
def audioOkC (v : JsVal) : Bool := !isDataUriStr v || (parseDataUri v.toStr).isSome

-- A well-formed Gemini response envelope whose single part carries text t.
def geminiEnvelope (t : String) : Json :=
  .obj [("candidates", .arr [.obj [("content",
    .obj [("parts", .arr [.obj [("text", .str t)]])])]])]

-- Shared concrete fixtures for witnesses and counterexamples.
def bodyHello : Body := ⟨.str "Hello um there", .str "interview", .undef, .undef⟩

-- A body whose speechSample is a truthy non-string value.
def bodyNum : Body := ⟨.num 42, .str "interview", .undef, .undef⟩

-- A well-formed 15-element evaluationCriteria payload and a parse function
-- (model of JSON.parse) defined on exactly its serialisation.
def ecArr15 : List Json := List.replicate 15 (Json.num 0)

def ecObj : Json := .obj [("evaluationCriteria", .arr ecArr15)]

def ecText : String := "\x7b\"evaluationCriteria\":[0,0,0,0,0,0,0,0,0,0,0,0,0,0,0]\x7d"

def pjC4 : String → Option Json := fun s => if s == ecText then some ecObj else none

-- Fixtures for the validation-order scenarios: a text that only parses via
-- bracket extraction, a directly-parseable non-object text, a text with a
-- bracket-extractable object, and a plain object without evaluationCriteria.
def c3t1 : String := "xx\x7b\"a\":1\x7dyy"

def c3u1 : String := "\x7b\"a\":1\x7d"

def c3v1 : Json := .obj [("a", .num 1)]

def c3t2 : String := "[1]"

def c3w2 : Json := .arr [.num 1]

def c3t3 : String := "zz\x7b\"b\":2\x7d"

def c3u3 : String := "\x7b\"b\":2\x7d"

def c3p3 : Json := .obj [("b", .num 2)]

def c3t4 : String := "\x7b\"c\":3\x7d"

def c3p4 : Json := .obj [("c", .num 3)]

def pjC3 : String → Option Json := fun s =>
  if s == c3t2 then some c3w2
  else if s == c3u1 then some c3v1
  else if s == c3u3 then some c3p3
  else if s == c3t4 then some c3p4
  else none

-- A POST invocation of revision A that passes the key and field checks
-- reduces to the post-call stage, recording exactly one outbound call.
theorem handlerA_reach (pj : String → Option Json) (key : Option String) (b : Body)
    (outcome : CallOutcomeAB) (hk : envTruthy key = true)
    (hss : b.speechSample.truthy = true) (hmo : b.mode.truthy = true) :
    handlerA pj key "POST" (some b) outcome =
      (handlerA_post pj outcome,
       [⟨systemPromptA b.perfectAnswer.truthy,
         userMessageAB b.speechSample b.mode b.question b.perfectAnswer⟩]) := by
  simp [handlerA, hk, hss, hmo]

-- Same for revision B.
theorem handlerB_reach (pj : String → Option Json) (key : Option String) (b : Body)
    (outcome : CallOutcomeAB) (hk : envTruthy key = true)
    (hss : b.speechSample.truthy = true) (hmo : b.mode.truthy = true) :
    handlerB pj key "POST" (some b) outcome =
      (handlerB_post pj outcome,
       [⟨systemPromptB b.perfectAnswer.truthy,
         userMessageAB b.speechSample b.mode b.question b.perfectAnswer⟩]) := by
  simp [handlerB, hk, hss, hmo]

-- Same for revision C when the speech sample is not a data: string.
theorem handlerC_reach_text (pj : String → Option Json) (key : Option String) (b : Body)
    (outcome : FetchOutcome) (hk : envTruthy key = true)
    (hss : b.speechSample.truthy = true) (hmo : b.mode.truthy = true)
    (hnd : isDataUriStr b.speechSample = false) :
    handlerC pj key "POST" (some b) outcome =
      (handlerC_post pj outcome,
       [[Part.text (systemPromptC b.perfectAnswer.truthy),
         Part.text (contextText b.mode b.question b.perfectAnswer),
         Part.text ("Speech Sample (Candidate\x27s Answer): " ++ b.speechSample.toStr)]]) := by
  simp [handlerC, hk, hss, hmo, hnd]

-- Revision C on a malformed data: sample: 400 before any call.
theorem handlerC_reach_data_bad (pj : String → Option Json) (key : Option String) (b : Body)
    (outcome : FetchOutcome) (hk : envTruthy key = true)
    (hss : b.speechSample.truthy = true) (hmo : b.mode.truthy = true)
    (hd : isDataUriStr b.speechSample = true)
    (hbad : parseDataUri b.speechSample.toStr = none) :
    handlerC pj key "POST" (some b) outcome =
      (⟨400, .errJson "Invalid audio data URI." none⟩, []) := by
  simp [handlerC, hk, hss, hmo, hd, hbad]

-- Revision C on a well-formed data: sample: the call carries inline audio.
theorem handlerC_reach_data_ok (pj : String → Option Json) (key : Option String) (b : Body)
    (outcome : FetchOutcome) (mime payload : String) (hk : envTruthy key = true)
    (hss : b.speechSample.truthy = true) (hmo : b.mode.truthy = true)
    (hd : isDataUriStr b.speechSample = true)
    (hgood : parseDataUri b.speechSample.toStr = some (mime, payload)) :
    handlerC pj key "POST" (some b) outcome =
      (handlerC_post pj outcome,
       [[Part.text (systemPromptC b.perfectAnswer.truthy),
         Part.text (contextText b.mode b.question b.perfectAnswer),
         Part.inlineData mime payload]]) := by
  simp [handlerC, hk, hss, hmo, hd, hgood]

-- The post-call stage of revision A only ever answers 500, 502 or 200
-- (in particular never 400).
theorem handlerA_post_status (pj : String → Option Json) (outcome : CallOutcomeAB) :
    (handlerA_post pj outcome).status = 500 ∨ (handlerA_post pj outcome).status = 502 ∨
      (handlerA_post pj outcome).status = 200 := by
  unfold handlerA_post
  rcases outcome with ⟨st, m⟩ | (_ | rt)
  · simp
  · simp
  · dsimp only
    split
    · simp
    · rcases hpj : pj rt with _ | parsed
      · simp
      · dsimp only
        split <;> simp

-- The post-call stage of revision B only ever answers 500 or 200.
theorem handlerB_post_status (pj : String → Option Json) (outcome : CallOutcomeAB) :
    (handlerB_post pj outcome).status = 500 ∨ (handlerB_post pj outcome).status = 200 := by
  unfold handlerB_post
  rcases outcome with ⟨st, m⟩ | (_ | rt)
  · simp
  · simp
  · dsimp only
    split
    · simp
    · rcases hpj : pj rt with _ | parsed
      · simp
      · dsimp only
        split
        · simp
        · split <;> simp

-- lastCloseIdx finds the last close brace: when a list ends in one, it
-- answers the final index.
theorem lastCloseIdx_of_getLast : ∀ cs : List Char, cs.getLast? = some '\x7d' →
    lastCloseIdx cs = some (cs.length - 1)
  | [], h => by simp at h
  | [c], h => by
      simp [List.getLast?] at h
      simp [lastCloseIdx, h]
  | c :: c2 :: cs2, h => by
      rw [List.getLast?_cons_cons] at h
      have ih := lastCloseIdx_of_getLast (c2 :: cs2) h
      rw [lastCloseIdx.eq_def]
      dsimp only
      rw [ih]
      simp

-- A string that starts with an open brace and ends with a close brace is
-- matched whole by the bracket-extraction regex.
theorem bracketMatch_wrapped (t : String) (h1 : t.data.head? = some '\x7b')
    (h2 : t.data.getLast? = some '\x7d') (h3 : 2 ≤ t.data.length) :
    bracketMatch t = some t := by
  obtain ⟨d⟩ := t
  cases d with
  | nil => simp at h1
  | cons c cs =>
      simp only [List.head?_cons, Option.some.injEq] at h1
      subst h1
      have hl := lastCloseIdx_of_getLast _ h2
      simp only [List.length_cons] at hl h3
      unfold bracketMatch
      have hf : firstOpenIdx ('\x7b' :: cs) = some 0 := by simp [firstOpenIdx]
      rw [show (String.mk ('\x7b' :: cs)).data = '\x7b' :: cs from rfl, hf, hl]
      dsimp only
      have hpos : 0 < cs.length + 1 - 1 := by omega
      rw [if_pos hpos]
      have he : cs.length + 1 - 1 - 0 + 1 = cs.length + 1 := by omega
      rw [List.drop_zero, he]
      simp

/-- Claim C5: a POST request to a configured deployment (API key present -
claim C9 records that the key check precedes the field check) whose body
lacks speechSample or lacks mode, including when either is the empty string
or otherwise falsy, is answered 400 with an error message in the body, and
no outbound model call is made, in all three revisions. -/
theorem C5_missing_fields (pj : String → Option Json) (key : Option String) (b : Body)
    (outA outB : CallOutcomeAB) (outC : FetchOutcome) (hk : envTruthy key = true)
    (hmiss : (b.speechSample.truthy && b.mode.truthy) = false) :
    handlerA pj key "POST" (some b) outA =
      (⟨400, .errJson "Missing required fields: speechSample, mode" none⟩, [])
  ∧ handlerB pj key "POST" (some b) outB =
      (⟨400, .errJson "Missing required fields." none⟩, [])
  ∧ handlerC pj key "POST" (some b) outC =
      (⟨400, .errJson "Missing required fields." none⟩, []) := by
  have h : (!b.speechSample.truthy || !b.mode.truthy) = true := by
    rw [← Bool.not_and, hmiss]; rfl
  exact ⟨by simp [handlerA, hk, h], by simp [handlerB, hk, h], by simp [handlerC, hk, h]⟩

/-- Witness for C5 at a concrete input (empty speechSample string). -/
theorem C5_witness :
    envTruthy (some "k") = true
  ∧ ((JsVal.str "").truthy && (JsVal.str "interview").truthy) = false
  ∧ handlerA (fun _ => none) (some "k") "POST"
      (some ⟨.str "", .str "interview", .undef, .undef⟩) (.ok none) =
      (⟨400, .errJson "Missing required fields: speechSample, mode" none⟩, []) :=
  ⟨by decide, by decide,
   (C5_missing_fields (fun _ => none) (some "k") ⟨.str "", .str "interview", .undef, .undef⟩
      (.ok none) (.ok none) (.netErr "") (by decide) (by decide)).1⟩

/-- Claim C9: while the API key environment variable is unset (or empty,
which is equally falsy), every POST request is answered with the 500
missing-key response - even when speechSample or mode is also missing - and
no model call is made; a 400 response is impossible without the key, in all
three revisions. -/
theorem C9_key_check_first (pj : String → Option Json) (key : Option String)
    (body? : Option Body) (outA outB : CallOutcomeAB) (outC : FetchOutcome)
    (hk : envTruthy key = false) :
    handlerA pj key "POST" body? outA = (⟨500, .errJson "Missing OPENROUTER_API_KEY" none⟩, [])
  ∧ handlerB pj key "POST" body? outB = (⟨500, .errJson "Missing OPENROUTER_API_KEY" none⟩, [])
  ∧ handlerC pj key "POST" body? outC = (⟨500, .errJson "Missing GOOGLE_AI_API_KEY" none⟩, [])
  ∧ (∀ method body2 out2, (handlerA pj key method body2 out2).1.status = 400 → False)
  ∧ (∀ method body2 out2, (handlerB pj key method body2 out2).1.status = 400 → False)
  ∧ (∀ method body2 out2, (handlerC pj key method body2 out2).1.status = 400 → False) := by
  refine ⟨by simp [handlerA, hk], by simp [handlerB, hk], by simp [handlerC, hk], ?_, ?_, ?_⟩
  · intro method body2 out2 h
    unfold handlerA at h
    split at h
    · simp at h
    · split at h
      · simp at h
      · simp [hk] at h
  · intro method body2 out2 h
    unfold handlerB at h
    split at h
    · simp at h
    · split at h
      · simp at h
      · simp [hk] at h
  · intro method body2 out2 h
    unfold handlerC at h
    split at h
    · simp at h
    · split at h
      · simp at h
      · simp [hk] at h

/-- Witness for C9 at a concrete input: key unset, fields also missing. -/
theorem C9_witness :
    envTruthy none = false
  ∧ handlerA (fun _ => none) none "POST" (some ⟨.undef, .undef, .undef, .undef⟩) (.ok none) =
      (⟨500, .errJson "Missing OPENROUTER_API_KEY" none⟩, []) :=
  ⟨by decide,
   (C9_key_check_first (fun _ => none) none (some ⟨.undef, .undef, .undef, .undef⟩)
      (.ok none) (.ok none) (.netErr "") (by decide)).1⟩

/-- Claim C1 (amended): a model response whose text is parseable neither by a
direct JSON.parse nor via bracket extraction never yields status 200, but
the error status is not uniformly 502 as claimed: revision A answers 502,
revision B answers 500, and revision C answers 502 when the text holds no
brace-delimited substring and 500 (through the outer catch, JSON.parse
throwing on the extracted substring) when it does. -/
theorem C1_unparseable_amended (pj : String → Option Json) (key : Option String) (b : Body)
    (t bt : String) (st : Nat) (bj : Json) (hk : envTruthy key = true)
    (hss : b.speechSample.truthy = true) (hmo : b.mode.truthy = true)
    (hnd : isDataUriStr b.speechSample = false)
    (hp : pj t = none) (hb : ∀ u, bracketMatch t = some u → pj u = none)
    (htx : modelTextC bj = .ok t) :
    (handlerA pj key "POST" (some b) (.ok (some t))).1.status = 502
  ∧ (handlerB pj key "POST" (some b) (.ok (some t))).1.status = 500
  ∧ (bracketMatch t = none →
      (handlerC pj key "POST" (some b) (.resp true st bt bj)).1 =
        ⟨502, .errJson "Model did not return JSON." none⟩)
  ∧ (∀ u, bracketMatch t = some u →
      (handlerC pj key "POST" (some b) (.resp true st bt bj)).1 =
        ⟨500, .errJson "Analysis failed." none⟩)
  ∧ (handlerC pj key "POST" (some b) (.resp true st bt bj)).1.status ≠ 200 := by
  rw [handlerA_reach pj key b _ hk hss hmo, handlerB_reach pj key b _ hk hss hmo,
      handlerC_reach_text pj key b _ hk hss hmo hnd]
  refine ⟨?_, ?_, ?_, ?_, ?_⟩
  · by_cases ht : t = ""
    · subst ht; simp [handlerA_post]
    · simp [handlerA_post, ht, hp]
  · by_cases ht : t = ""
    · subst ht; simp [handlerB_post]
    · simp [handlerB_post, ht, hp]
  · intro hnone
    simp [handlerC_post, htx, hnone]
  · intro u hu
    simp [handlerC_post, htx, hu, hb u hu]
  · rcases hbm : bracketMatch t with _ | u
    · simp [handlerC_post, htx, hbm]
    · simp [handlerC_post, htx, hbm, hb u hbm]

/-- Counterexample to C1 as stated: revision B answers 500, not 502, on a
model response ("not json") that parses neither directly (the parse function
is constant none) nor via bracket extraction (no brace-delimited substring
exists in it). -/
theorem C1_counterexample :
    (handlerB (fun _ => none) (some "k") "POST" (some bodyHello) (.ok (some "not json"))).1 =
      ⟨500, .errJson "Failed to parse AI response as JSON" none⟩
  ∧ bracketMatch "not json" = none
  ∧ (500 : Nat) ≠ 502 :=
  ⟨rfl, by decide, by decide⟩

/-- Witness for the amended C1 at concrete inputs. -/
theorem C1_witness :
    (handlerA (fun _ => none) (some "k") "POST" (some bodyHello) (.ok (some "not json"))).1.status = 502
  ∧ (handlerB (fun _ => none) (some "k") "POST" (some bodyHello) (.ok (some "not json"))).1.status = 500
  ∧ (handlerC (fun _ => none) (some "k") "POST" (some bodyHello)
      (.resp true 200 "" (geminiEnvelope "not json"))).1 =
      ⟨502, .errJson "Model did not return JSON." none⟩ := by
  have h := C1_unparseable_amended (fun _ => none) (some "k") bodyHello "not json" "" 200
    (geminiEnvelope "not json") (by decide) (by decide) (by decide) (by decide) rfl
    (fun u _ => rfl) rfl
  exact ⟨h.1, h.2.1, h.2.2.1 (by decide)⟩

/-- Claim C6 (amended): only revision C propagates an upstream non-success
status and its response text to the caller (as the error field of the JSON
body); in revisions A and B an upstream non-success response makes the SDK
throw, and the handler answers a generic 500 "Analysis failed" with the
thrown message in details - the upstream status code is not propagated. -/
theorem C6_upstream_amended (pj : String → Option Json) (key : Option String) (b : Body)
    (st : Nat) (msg bodyText : String) (bj : Json) (hk : envTruthy key = true)
    (hss : b.speechSample.truthy = true) (hmo : b.mode.truthy = true)
    (hnd : isDataUriStr b.speechSample = false) :
    (handlerC pj key "POST" (some b) (.resp false st bodyText bj)).1 =
      ⟨st, .errJson bodyText none⟩
  ∧ (handlerA pj key "POST" (some b) (.err st msg)).1 =
      ⟨500, .errJson "Analysis failed" (some (if msg == "" then "unknown" else msg))⟩
  ∧ (handlerB pj key "POST" (some b) (.err st msg)).1 =
      ⟨500, .errJson "Analysis failed" (some msg)⟩ := by
  rw [handlerC_reach_text pj key b _ hk hss hmo hnd, handlerA_reach pj key b _ hk hss hmo,
      handlerB_reach pj key b _ hk hss hmo]
  exact ⟨by simp [handlerC_post], rfl, rfl⟩

/-- Counterexample to C6 as stated: in revision A an upstream 429 response
(the SDK throw carrying "Too Many Requests") is answered with status 500 and
a generic "Analysis failed" body - the upstream status is not propagated. -/
theorem C6_counterexample :
    (handlerA (fun _ => none) (some "k") "POST" (some bodyHello)
      (.err 429 "Too Many Requests")).1 =
      ⟨500, .errJson "Analysis failed" (some "Too Many Requests")⟩
  ∧ (500 : Nat) ≠ 429 :=
  ⟨rfl, by decide⟩

/-- Witness for the amended C6 at concrete inputs. -/
theorem C6_witness :
    (handlerC (fun _ => none) (some "k") "POST" (some bodyHello)
      (.resp false 429 "quota exhausted" .null)).1 = ⟨429, .errJson "quota exhausted" none⟩
  ∧ (handlerB (fun _ => none) (some "k") "POST" (some bodyHello) (.err 429 "boom")).1 =
      ⟨500, .errJson "Analysis failed" (some "boom")⟩ := by
  have h := C6_upstream_amended (fun _ => none) (some "k") bodyHello 429 "boom" "quota exhausted"
    .null (by decide) (by decide) (by decide) (by decide)
  exact ⟨h.1, h.2.2⟩

/-- Claim C8: each revision makes at most one outbound model call per
invocation, for every input (so in particular nothing is retried after a
post-call failure), and exactly one call is made once the method, API-key
and field validations pass - where for revision C the field validations
include the data-URI well-formedness check applied to a data: speech sample
(audioOkC). -/
theorem C8_single_call (pj : String → Option Json) (key : Option String) (method : String)
    (body? : Option Body) (outA outB : CallOutcomeAB) (outC : FetchOutcome) (b : Body)
    (hk : envTruthy key = true) (hss : b.speechSample.truthy = true)
    (hmo : b.mode.truthy = true) :
    (handlerA pj key method body? outA).2.length ≤ 1
  ∧ (handlerB pj key method body? outB).2.length ≤ 1
  ∧ (handlerC pj key method body? outC).2.length ≤ 1
  ∧ (handlerA pj key "POST" (some b) outA).2.length = 1
  ∧ (handlerB pj key "POST" (some b) outB).2.length = 1
  ∧ (audioOkC b.speechSample = true → (handlerC pj key "POST" (some b) outC).2.length = 1) := by
  refine ⟨?_, ?_, ?_, ?_, ?_, ?_⟩
  · unfold handlerA
    repeat' (first | split | dsimp only)
    all_goals simp
  · unfold handlerB
    repeat' (first | split | dsimp only)
    all_goals simp
  · unfold handlerC
    repeat' (first | split | dsimp only)
    all_goals simp
  · rw [handlerA_reach pj key b _ hk hss hmo]; rfl
  · rw [handlerB_reach pj key b _ hk hss hmo]; rfl
  · intro hok
    by_cases hd : isDataUriStr b.speechSample = true
    · have hsome : (parseDataUri b.speechSample.toStr).isSome = true := by
        simpa [audioOkC, hd] using hok
      rcases Option.isSome_iff_exists.mp hsome with ⟨⟨mime, payload⟩, hmd⟩
      rw [handlerC_reach_data_ok pj key b _ mime payload hk hss hmo hd hmd]; rfl
    · rw [handlerC_reach_text pj key b _ hk hss hmo (by simpa using hd)]; rfl

/-- Witness for C8 at concrete inputs. -/
theorem C8_witness :
    (handlerA (fun _ => none) (some "k") "POST" (some bodyHello) (.ok none)).2.length = 1
  ∧ (handlerC (fun _ => none) (some "k") "POST" (some bodyHello) (.netErr "down")).2.length = 1 := by
  have h := C8_single_call (fun _ => none) (some "k") "POST" (some bodyHello) (.ok none)
    (.ok none) (.netErr "down") bodyHello (by decide) (by decide) (by decide)
  exact ⟨h.2.2.2.1, h.2.2.2.2.2 (by decide)⟩

/-- Claim C10: a truthy speechSample that is not a string (a number, an
object, true) is not rejected as malformed: every revision makes its model
call with the value coerced by String(speechSample) and embedded as literal
text in the message - never treated as audio (revision C sends a text part,
not an inlineData part). -/
theorem C10_coerced_text (pj : String → Option Json) (key : Option String)
    (ss mode question perfectAnswer : JsVal) (outA outB : CallOutcomeAB) (outC : FetchOutcome)
    (hk : envTruthy key = true) (hss : ss.truthy = true) (hstr : ss.isString = false)
    (hmo : mode.truthy = true) :
    (handlerA pj key "POST" (some ⟨ss, mode, question, perfectAnswer⟩) outA).2 =
      [⟨systemPromptA perfectAnswer.truthy,
        contextText mode question perfectAnswer ++ "\n\n" ++
          ("Speech Sample (Text): " ++ ss.toStr)⟩]
  ∧ (handlerB pj key "POST" (some ⟨ss, mode, question, perfectAnswer⟩) outB).2 =
      [⟨systemPromptB perfectAnswer.truthy,
        contextText mode question perfectAnswer ++ "\n\n" ++
          ("Speech Sample (Text): " ++ ss.toStr)⟩]
  ∧ (handlerC pj key "POST" (some ⟨ss, mode, question, perfectAnswer⟩) outC).2 =
      [[Part.text (systemPromptC perfectAnswer.truthy),
        Part.text (contextText mode question perfectAnswer),
        Part.text ("Speech Sample (Candidate\x27s Answer): " ++ ss.toStr)]] := by
  have hnd : isDataUriStr ss = false := by
    cases ss <;> simp_all [isDataUriStr, JsVal.isString]
  rw [handlerA_reach pj key ⟨ss, mode, question, perfectAnswer⟩ _ hk hss hmo,
      handlerB_reach pj key ⟨ss, mode, question, perfectAnswer⟩ _ hk hss hmo,
      handlerC_reach_text pj key ⟨ss, mode, question, perfectAnswer⟩ _ hk hss hmo hnd]
  refine ⟨?_, ?_, rfl⟩ <;> simp [userMessageAB, hnd]

/-- Witness for C10 at a concrete input: speechSample is the number 42,
coerced to the text "42". -/
theorem C10_witness :
    (JsVal.num 42).truthy = true
  ∧ (JsVal.num 42).isString = false
  ∧ (handlerC (fun _ => none) (some "k") "POST" (some bodyNum) (.netErr "x")).2 =
      [[Part.text (systemPromptC false),
        Part.text (contextText (.str "interview") .undef .undef),
        Part.text ("Speech Sample (Candidate\x27s Answer): " ++ (JsVal.num 42).toStr)]] :=
  ⟨by decide, by decide,
   (C10_coerced_text (fun _ => none) (some "k") (.num 42) (.str "interview") .undef .undef
      (.ok none) (.ok none) (.netErr "x") (by decide) (by decide) (by decide) (by decide)).2.2⟩

/-- Claim C4: a model response that is a valid JSON object - its text parses
to an object and is brace-delimited in the usual serialised form - whose
evaluationCriteria field is an array of exactly 15 entries is answered with
status 200, and the parsed object is returned to the caller structurally
unchanged, in all three revisions. -/
theorem C4_valid_object_200 (pj : String → Option Json) (key : Option String) (b : Body)
    (t bt : String) (st : Nat) (bj : Json) (kvs : List (String × Json)) (l : List Json)
    (hk : envTruthy key = true) (hss : b.speechSample.truthy = true)
    (hmo : b.mode.truthy = true) (hnd : isDataUriStr b.speechSample = false)
    (hp : pj t = some (.obj kvs))
    (hec : (Json.obj kvs).getProp "evaluationCriteria" = some (.arr l))
    (hlen : l.length = 15)
    (hhead : t.data.head? = some '\x7b') (hlast : t.data.getLast? = some '\x7d')
    (htwo : 2 ≤ t.data.length) (htx : modelTextC bj = .ok t) :
    (handlerA pj key "POST" (some b) (.ok (some t))).1 = ⟨200, .jsonVal (.obj kvs)⟩
  ∧ (handlerB pj key "POST" (some b) (.ok (some t))).1 = ⟨200, .jsonVal (.obj kvs)⟩
  ∧ (handlerC pj key "POST" (some b) (.resp true st bt bj)).1 = ⟨200, .jsonVal (.obj kvs)⟩ := by
  have ht : t ≠ "" := by
    intro h
    subst h
    simp [show ("" : String).data = [] from rfl] at hhead
  have hbm := bracketMatch_wrapped t hhead hlast htwo
  rw [handlerA_reach pj key b _ hk hss hmo, handlerB_reach pj key b _ hk hss hmo,
      handlerC_reach_text pj key b _ hk hss hmo hnd]
  refine ⟨?_, ?_, ?_⟩
  · simp [handlerA_post, ht, hp, hec, hlen, optTruthy, Json.truthy, optIsArray, optArrLen]
  · simp [handlerB_post, ht, hp, hec, Json.isNull, optTruthy, Json.truthy, optIsArray]
  · simp [handlerC_post, htx, hbm, hp]

/-- Witness for C4 at a concrete input: a 15-element evaluationCriteria
object, serialised, with the parse function defined on that serialisation. -/
theorem C4_witness :
    pjC4 ecText = some (.obj [("evaluationCriteria", .arr ecArr15)])
  ∧ ecArr15.length = 15
  ∧ (handlerA pjC4 (some "k") "POST" (some bodyHello) (.ok (some ecText))).1 =
      ⟨200, .jsonVal (.obj [("evaluationCriteria", .arr ecArr15)])⟩
  ∧ (handlerC pjC4 (some "k") "POST" (some bodyHello)
      (.resp true 200 "" (geminiEnvelope ecText))).1 =
      ⟨200, .jsonVal (.obj [("evaluationCriteria", .arr ecArr15)])⟩ := by
  have h := C4_valid_object_200 pjC4 (some "k") bodyHello ecText "" 200 (geminiEnvelope ecText)
    [("evaluationCriteria", .arr ecArr15)] ecArr15 (by decide) (by decide) (by decide) (by decide)
    (by rfl) (by rfl) (by decide) (by decide) (by decide) (by decide) (by rfl)
  exact ⟨by rfl, by decide, h.1, h.2.2⟩

/-- Claim C2 (amended): only revision C forwards a data: speechSample as
structured inline audio - an inlineData part holding the parsed mime type
and base64 payload - and answers 400 with no model call when the string does
not match the data:<mime>;base64,<payload> pattern; revisions A and B embed
the data: string as literal text in the user message (labelled as an audio
data URI), make the model call regardless, and never answer 400 for it. -/
theorem C2_data_uri_amended (pj : String → Option Json) (key : Option String) (s : String)
    (mode question perfectAnswer : JsVal) (outA outB : CallOutcomeAB) (outC : FetchOutcome)
    (hk : envTruthy key = true) (hmo : mode.truthy = true)
    (hd : jsStartsWith s "data:" = true) :
    (handlerA pj key "POST" (some ⟨.str s, mode, question, perfectAnswer⟩) outA).2 =
      [⟨systemPromptA perfectAnswer.truthy,
        contextText mode question perfectAnswer ++ "\n\n" ++
          ("Speech Sample (Audio Data URI): " ++ s)⟩]
  ∧ (handlerA pj key "POST" (some ⟨.str s, mode, question, perfectAnswer⟩) outA).1.status ≠ 400
  ∧ (handlerB pj key "POST" (some ⟨.str s, mode, question, perfectAnswer⟩) outB).2 =
      [⟨systemPromptB perfectAnswer.truthy,
        contextText mode question perfectAnswer ++ "\n\n" ++
          ("Speech Sample (Audio Data URI): " ++ s)⟩]
  ∧ (handlerB pj key "POST" (some ⟨.str s, mode, question, perfectAnswer⟩) outB).1.status ≠ 400
  ∧ (parseDataUri s = none →
      handlerC pj key "POST" (some ⟨.str s, mode, question, perfectAnswer⟩) outC =
        (⟨400, .errJson "Invalid audio data URI." none⟩, []))
  ∧ (∀ mime payload, parseDataUri s = some (mime, payload) →
      (handlerC pj key "POST" (some ⟨.str s, mode, question, perfectAnswer⟩) outC).2 =
        [[Part.text (systemPromptC perfectAnswer.truthy),
          Part.text (contextText mode question perfectAnswer),
          Part.inlineData mime payload]]) := by
  have hne : s ≠ "" := by
    intro h
    subst h
    exact absurd hd (by decide)
  have hss : (JsVal.str s).truthy = true := by simp [JsVal.truthy, hne]
  have hdu : isDataUriStr (JsVal.str s) = true := by simp [isDataUriStr, hd]
  refine ⟨?_, ?_, ?_, ?_, ?_, ?_⟩
  · rw [handlerA_reach pj key ⟨.str s, mode, question, perfectAnswer⟩ _ hk hss hmo]
    simp [userMessageAB, hdu, JsVal.toStr]
  · rw [handlerA_reach pj key ⟨.str s, mode, question, perfectAnswer⟩ _ hk hss hmo]
    rcases handlerA_post_status pj outA with h | h | h <;> simp [h]
  · rw [handlerB_reach pj key ⟨.str s, mode, question, perfectAnswer⟩ _ hk hss hmo]
    simp [userMessageAB, hdu, JsVal.toStr]
  · rw [handlerB_reach pj key ⟨.str s, mode, question, perfectAnswer⟩ _ hk hss hmo]
    rcases handlerB_post_status pj outB with h | h <;> simp [h]
  · intro hbad
    exact handlerC_reach_data_bad pj key ⟨.str s, mode, question, perfectAnswer⟩ _ hk hss hmo hdu hbad
  · intro mime payload hgood
    rw [handlerC_reach_data_ok pj key ⟨.str s, mode, question, perfectAnswer⟩ _ mime payload
      hk hss hmo hdu hgood]

/-- Counterexample to C2 as stated: "data:junk" begins with data: but does
not match the data:mime;base64,payload pattern; revision A (OpenRouter),
rather than answering 400 with no model call, makes the call (one recorded
call) and answers from the post-call stage (here 502). -/
theorem C2_counterexample :
    parseDataUri "data:junk" = none
  ∧ (handlerA (fun _ => none) (some "k") "POST"
      (some ⟨.str "data:junk", .str "interview", .undef, .undef⟩) (.ok none)).1.status = 502
  ∧ (handlerA (fun _ => none) (some "k") "POST"
      (some ⟨.str "data:junk", .str "interview", .undef, .undef⟩) (.ok none)).2.length = 1 :=
  ⟨by decide, rfl, rfl⟩

/-- Witness for the amended C2 at concrete inputs: a well-formed audio data
URI becomes an inlineData part in revision C; a malformed one is answered
400 with no call. -/
theorem C2_witness :
    jsStartsWith "data:audio/wav;base64,AAAA" "data:" = true
  ∧ parseDataUri "data:audio/wav;base64,AAAA" = some ("audio/wav", "AAAA")
  ∧ (handlerC (fun _ => none) (some "k") "POST"
      (some ⟨.str "data:audio/wav;base64,AAAA", .str "interview", .undef, .undef⟩)
      (.netErr "x")).2 =
      [[Part.text (systemPromptC false),
        Part.text (contextText (.str "interview") .undef .undef),
        Part.inlineData "audio/wav" "AAAA"]]
  ∧ handlerC (fun _ => none) (some "k") "POST"
      (some ⟨.str "data:junk", .str "interview", .undef, .undef⟩) (.netErr "x") =
      (⟨400, .errJson "Invalid audio data URI." none⟩, []) := by
  have h1 := C2_data_uri_amended (fun _ => none) (some "k") "data:audio/wav;base64,AAAA"
    (.str "interview") .undef .undef (.ok none) (.ok none) (.netErr "x")
    (by decide) (by decide) (by decide)
  have h2 := C2_data_uri_amended (fun _ => none) (some "k") "data:junk"
    (.str "interview") .undef .undef (.ok none) (.ok none) (.netErr "x")
    (by decide) (by decide) (by decide)
  exact ⟨by decide, by decide,
    h1.2.2.2.2.2 "audio/wav" "AAAA" (by decide), h2.2.2.2.2.1 (by decide)⟩

/-- Claim C3 (amended): no revision combines a direct JSON parse, a
bracket-extraction fallback and the evaluationCriteria check.  Revisions A
and B attempt only the direct parse - when it fails they answer 502
(respectively 500) even when a bracket-extracted substring would parse - and
then confirm evaluationCriteria is present and is an array; revision C
attempts only bracket extraction - answering 502 when the text holds no
brace-delimited substring, even when the text parses directly - and never
checks evaluationCriteria at all (any extracted parse result is returned
with 200). -/
theorem C3_validation_amended (pj : String → Option Json) (key : Option String) (b : Body)
    (t1 u1 t2 t3 u3 t4 : String) (v1 w2 p3 p4 : Json) (st : Nat) (bt : String) (bj2 bj3 : Json)
    (hk : envTruthy key = true) (hss : b.speechSample.truthy = true)
    (hmo : b.mode.truthy = true) (hnd : isDataUriStr b.speechSample = false)
    (hp1 : pj t1 = none) (hbm1 : bracketMatch t1 = some u1) (hpu1 : pj u1 = some v1)
    (hb2 : bracketMatch t2 = none) (hp2 : pj t2 = some w2) (htx2 : modelTextC bj2 = .ok t2)
    (hb3 : bracketMatch t3 = some u3) (hp3 : pj u3 = some p3) (htx3 : modelTextC bj3 = .ok t3)
    (hp4 : pj t4 = some p4) (ht4 : t4 ≠ "")
    (hec4 : p4.getProp "evaluationCriteria" = none) (hn4 : p4.isNull = false) :
    (handlerA pj key "POST" (some b) (.ok (some t1))).1 =
      ⟨502, .errJson "Model returned non-JSON output" none⟩
  ∧ (handlerB pj key "POST" (some b) (.ok (some t1))).1 =
      ⟨500, .errJson "Failed to parse AI response as JSON" none⟩
  ∧ (handlerC pj key "POST" (some b) (.resp true st bt bj2)).1 =
      ⟨502, .errJson "Model did not return JSON." none⟩
  ∧ (handlerC pj key "POST" (some b) (.resp true st bt bj3)).1 = ⟨200, .jsonVal p3⟩
  ∧ (handlerA pj key "POST" (some b) (.ok (some t4))).1 =
      ⟨502, .errJson "Invalid response structure: evaluationCriteria must contain 15 items" none⟩
  ∧ (handlerB pj key "POST" (some b) (.ok (some t4))).1 =
      ⟨500, .errJson "Invalid response structure from AI" none⟩ := by
  have ht1 : t1 ≠ "" := by
    intro h
    subst h
    rw [show bracketMatch "" = none from rfl] at hbm1
    exact Option.noConfusion hbm1
  rw [handlerA_reach pj key b (.ok (some t1)) hk hss hmo,
      handlerA_reach pj key b (.ok (some t4)) hk hss hmo,
      handlerB_reach pj key b (.ok (some t1)) hk hss hmo,
      handlerB_reach pj key b (.ok (some t4)) hk hss hmo,
      handlerC_reach_text pj key b (.resp true st bt bj2) hk hss hmo hnd,
      handlerC_reach_text pj key b (.resp true st bt bj3) hk hss hmo hnd]
  refine ⟨?_, ?_, ?_, ?_, ?_, ?_⟩
  · simp [handlerA_post, ht1, hp1]
  · simp [handlerB_post, ht1, hp1]
  · simp [handlerC_post, htx2, hb2]
  · simp [handlerC_post, htx3, hb3, hp3]
  · simp [handlerA_post, ht4, hp4, hec4, optTruthy, optIsArray]
  · simp [handlerB_post, ht4, hp4, hec4, hn4, optTruthy, optIsArray]

/-- Counterexample to C3 as stated: revision C answers 502 on "[1]" even
though it parses directly (no direct parse is ever attempted, only bracket
extraction), and answers 200 on an extracted object that has no
evaluationCriteria field at all (no evaluationCriteria check is made). -/
theorem C3_counterexample :
    pjC3 "[1]" = some (.arr [.num 1])
  ∧ (handlerC pjC3 (some "k") "POST" (some bodyHello)
      (.resp true 200 "" (geminiEnvelope c3t2))).1 =
      ⟨502, .errJson "Model did not return JSON." none⟩
  ∧ (c3p4.getProp "evaluationCriteria" = none)
  ∧ (handlerC pjC3 (some "k") "POST" (some bodyHello)
      (.resp true 200 "" (geminiEnvelope c3t4))).1 = ⟨200, .jsonVal c3p4⟩ :=
  ⟨rfl, rfl, rfl, rfl⟩

/-- Witness for the amended C3 at concrete inputs, with a finite parse
table: t1 = "xx(object)yy" parses only via extraction; t2 = "[1]" parses
only directly; t3 holds an extractable object; t4 is an object without
evaluationCriteria. -/
theorem C3_witness :
    pjC3 c3t1 = none
  ∧ bracketMatch c3t1 = some c3u1
  ∧ (handlerA pjC3 (some "k") "POST" (some bodyHello) (.ok (some c3t1))).1 =
      ⟨502, .errJson "Model returned non-JSON output" none⟩
  ∧ (handlerB pjC3 (some "k") "POST" (some bodyHello) (.ok (some c3t4))).1 =
      ⟨500, .errJson "Invalid response structure from AI" none⟩ := by
  have h := C3_validation_amended pjC3 (some "k") bodyHello c3t1 c3u1 c3t2 c3t3 c3u3 c3t4
    c3v1 c3w2 c3p3 c3p4 200 "" (geminiEnvelope c3t2) (geminiEnvelope c3t3)
    (by decide) (by decide) (by decide) (by decide)
    (by rfl) (by decide) (by rfl)
    (by decide) (by rfl) (by rfl)
    (by decide) (by rfl) (by rfl)
    (by rfl) (by decide) (by rfl) (by rfl)
  exact ⟨by rfl, by decide, h.1, h.2.2.2.2.2⟩

/-- Claim C7: the system prompt contains the exam-style comparison
instruction - the phrase "compared to the perfect answer" - precisely when
perfectAnswer is supplied (truthy), and is otherwise the open-coaching
variant - the phrase "professional speech coach" - which omits the
comparison instruction, in all three revisions.  (The fixed output schema
appended in revisions A and C always lists a lowercase "comparison" field
name; the comparison instruction proper appears only with perfectAnswer.) -/
theorem C7_prompt_branch (pa : Bool) :
    strContains (systemPromptA pa) "compared to the perfect answer" = pa
  ∧ strContains (systemPromptB pa) "compared to the perfect answer" = pa
  ∧ strContains (systemPromptC pa) "compared to the perfect answer" = pa
  ∧ strContains (systemPromptA pa) "professional speech coach" = !pa
  ∧ strContains (systemPromptB pa) "professional speech coach" = !pa
  ∧ strContains (systemPromptC pa) "professional speech coach" = !pa := by
  cases pa
  · exact ⟨by decide, by decide, by decide, by decide, by decide, by decide⟩
  · exact ⟨by decide, by decide, by decide, by decide, by decide, by decide⟩

end Analyze
